import Mathlib

/-!
Shallow embedding of the tfc-backend CRUD handlers
(`src/app_class/views.py`, `src/app_schedule/views.py`,
`src/app_auth/views.py`, with the model fields taken from
`src/master_db/migrations/0001_initial.py`).

The relational store is a record of lists; handlers are pure functions
`Store → params → Outcome × Store`.  Request parameters obtained through
`request.POST.get(...)` are `Option`-valued (absent ↦ `none`).  A Django
`Response` is `Outcome.resp`, a raised DRF `APIException` (which the
framework turns into a structured error response) is `Outcome.err`, and a
non-API Python exception escaping the handler (NameError, AttributeError,
FieldError) is `Outcome.crash`.
-/

namespace TfcBackend

/-- The error taxonomy of spec §7, as DRF exceptions carried by structured
error responses. -/
inductive ApiError where
  | notFound (what : String)
  | invalidIdentifier (what : String)
  | validationError (fields : List String)
  | parseError (msg : String)
  | authenticationFailed (msg : String)
deriving DecidableEq, Repr

/-- HTTP status DRF attaches to each APIException. -/
def apiStatus : ApiError → Nat
  | .notFound _ => 404
  | .invalidIdentifier _ => 400
  | .validationError _ => 400
  | .parseError _ => 400
  | .authenticationFailed _ => 401

/-- A Python exception that is not a DRF APIException: it escapes the
handler unhandled (HTTP 500 from the framework), no structured body. -/
inductive PyErr where
  | nameError (ident : String)
  | attributeError (attr : String)
  | fieldError (field : String)
deriving DecidableEq, Repr

/-- Payload shapes of the responses the embedded handlers build. -/
inductive RespData where
  | detailOk
  | errorMsg (msg : String)
  | created (teacherAdded : Bool) (studentsAdded : Option (List String))
  | addedStudents (uuids : List String)
  | missingSet (missing : List String)
  | modifiedFields (fields : List String)
  | notModified
  | deleted
  | classPayload (name : Option String)
deriving DecidableEq, Repr

/-- Outcome of one request: a literal `Response(status, data)`, a raised
DRF APIException (structured error response), or an unhandled exception. -/
inductive Outcome where
  | resp (statusCode : Nat) (d : RespData)
  | err (e : ApiError)
  | crash (e : PyErr)
deriving DecidableEq, Repr

/-- `master_db.models.MyUser` (migration: CustomUser) restricted to the
fields the handlers read: primary key, `uuid`, `is_active`. -/
structure MyUser where
  pk : Nat
  uuid : String
  isActive : Bool
deriving DecidableEq, Repr

/-- `master_db.models.Course` restricted to its natural key. -/
structure Course where
  name : String
deriving DecidableEq, Repr

/-- `master_db.models.ClassMetadata`: name and status are request-supplied
and may be absent (`None`) on a never-validated instance; `students` is the
many-to-many roster as a list of user primary keys. -/
structure ClassMetadata where
  name : Option String
  courseName : String
  teacherUuid : Option String
  status : Option String
  createdAt : Nat
  updatedAt : Nat
  students : List Nat
deriving DecidableEq, Repr

/-- `master_db.models.Schedule`: the time fields are `Option Int` because
`request.POST.get` may yield `None`; full validation requires them. -/
structure Schedule where
  uuid : String
  classroomName : String
  timeStart : Option Int
  timeEnd : Option Int
  createdAt : Nat
  updatedAt : Nat
deriving DecidableEq, Repr

/-- The relational store behind the ORM. -/
structure Store where
  users : List MyUser
  courses : List Course
  classes : List ClassMetadata
  scheds : List Schedule
deriving DecidableEq, Repr

/-- `Course.objects.get(name=...)`: `get(name=None)` matches no row
(the column is non-null). -/
def findCourse (s : Store) : Option String → Option Course
  | none => none
  | some nm => s.courses.find? (fun c => c.name == nm)

/-- `MyUser.objects.get(uuid=...)` after a successful UUID parse. -/
def findUserByUuid (s : Store) (u : String) : Option MyUser :=
  s.users.find? (fun x => x.uuid == u)

/-- `ClassMetadata.objects.get(name=...)`; `get(name=None)` matches no row. -/
def findClassByName (s : Store) : Option String → Option ClassMetadata
  | none => none
  | some nm => s.classes.find? (fun c => c.name == some nm)

/-- `Schedule.objects.get(uuid=...)` after a successful UUID parse. -/
def findSchedByUuid (s : Store) (u : String) : Option Schedule :=
  s.scheds.find? (fun x => x.uuid == u)

def isHexDigit (c : Char) : Bool :=
  c.isDigit || ('a' ≤ c && c ≤ 'f') || ('A' ≤ c && c ≤ 'F')

/-- Canonical textual UUID syntax (`uuid.UUID` accepts it): 36 characters,
hyphens at positions 8, 13, 18, 23, hex digits elsewhere.  A key failing
this check makes Django's UUIDField raise ValidationError when it is used
in a lookup. -/
def isValidUUID (s : String) : Bool :=
  let cs := s.toList
  cs.length == 36 &&
    (cs.enum.all fun p =>
      if p.1 == 8 || p.1 == 13 || p.1 == 18 || p.1 == 23 then p.2 == '-'
      else isHexDigit p.2)

/-- `str.split(',')` of Python on a list of characters: always at least one
chunk, empty chunks kept. -/
def splitCommas : List Char → List (List Char)
  | [] => [[]]
  | c :: rest =>
    let r := splitCommas rest
    if c == ',' then [] :: r
    else
      match r with
      | h :: t => (c :: h) :: t
      | [] => [[c]]

/-- `std_uuids.replace(' ', '').split(',')`: drop every space, then split
on commas. -/
def splitIds (s : String) : List String :=
  (splitCommas (s.toList.filter (fun c => !(c == ' ')))).map List.asString

/-- Modelled from the spec: `get_object_or_404` (master_api.utils, not
under src/) — §4.1 Entity Locator: resolve by the natural key, fail with
`NotFound` when no record matches.  Instantiated at ClassMetadata, the only
use in the schedule views. -/
def get_object_or_404 (s : Store) (key : Option String) : Except ApiError ClassMetadata :=
  match findClassByName s key with
  | some c => .ok c
  | none => .error (.notFound "Class")

/-- Modelled from the spec: `get_by_uuid` (master_api.utils, not under
src/) — §4.1 Entity Locator: fail with `InvalidIdentifier` when the key is
syntactically not a valid UUID, with `NotFound` when no record matches.
Instantiated at Schedule. -/
def get_by_uuid (s : Store) (key : Option String) : Except ApiError Schedule :=
  match key with
  | none => .error (.invalidIdentifier "Schedule")
  | some k =>
    if isValidUUID k then
      match findSchedByUuid s k with
      | some sc => .ok sc
      | none => .error (.notFound "Schedule")
    else .error (.invalidIdentifier "Schedule")

/-- Modelled from the spec: `model_full_clean` (master_api.utils, not
under src/) runs Django `full_clean` and raises ValidationError on any
field violation.  For Schedule the required non-null fields are the two
time columns (the classroom is always set by the callers). -/
def model_full_clean (sc : Schedule) : Except ApiError Unit :=
  match sc.timeStart, sc.timeEnd with
  | some _, some _ => .ok ()
  | none, some _ => .error (.validationError ["time_start"])
  | some _, none => .error (.validationError ["time_end"])
  | none, none => .error (.validationError ["time_start", "time_end"])

/-- `validate_sched` (src/app_schedule/views.py lines 20-27): full model
validation, then the cross-field check raising
`ParseError('Time end must be greater than time start')`. -/
def validate_sched (sc : Schedule) : Except ApiError Unit := do
  model_full_clean sc
  match sc.timeEnd, sc.timeStart with
  | some te, some ts =>
    if te ≤ ts then .error (.parseError "Time end must be greater than time start")
    else .ok ()
  | _, _ => .ok ()

/-- Modelled from the spec: `edit_object` (master_api.utils, not under
src/) — §4.2 Partial-Update Engine: for each field of the change set, skip
it when it is not a declared mutable attribute (so `uuid` and the
timestamps are ignored), skip it when the proposed value equals the
entity's current value, otherwise assign it and record the field name.
The mutable Schedule attributes touched by edit_sched are `classroom`,
`time_start`, `time_end`; the change set is the request's QueryDict, so
each field occurs at most once. -/
def edit_object (sc : Schedule) (classroom : Option String)
    (time_start time_end : Option Int) : Schedule × List String :=
  let (sc, l) :=
    match classroom with
    | some c =>
      if sc.classroomName == c then (sc, [])
      else ({ sc with classroomName := c }, ["classroom"])
    | none => (sc, [])
  let (sc, l) :=
    match time_start with
    | some t =>
      if sc.timeStart == some t then (sc, l)
      else ({ sc with timeStart := some t }, l ++ ["time_start"])
    | none => (sc, l)
  let (sc, l) :=
    match time_end with
    | some t =>
      if sc.timeEnd == some t then (sc, l)
      else ({ sc with timeEnd := some t }, l ++ ["time_end"])
    | none => (sc, l)
  (sc, l)

structure CreateSchedParams where
  class_name : Option String
  time_start : Option Int
  time_end : Option Int
deriving DecidableEq, Repr

/-- The Schedule instance `create_sched` constructs (views.py lines
43-50); `fresh` stands for the model's uuid4 default. -/
def mkSched (p : CreateSchedParams) (now : Nat) (fresh : String) (classroomName : String) : Schedule :=
  { uuid := fresh
    classroomName := classroomName
    timeStart := p.time_start
    timeEnd := p.time_end
    createdAt := now
    updatedAt := now }

def addSched (s : Store) (sc : Schedule) : Store :=
  { s with scheds := s.scheds ++ [sc] }

/-- `create_sched` (src/app_schedule/views.py lines 30-61): locate the
class, construct the schedule, validate, save, respond 201. -/
def create_sched (s : Store) (p : CreateSchedParams) (now : Nat) (fresh : String) :
    Outcome × Store :=
  match p.class_name, get_object_or_404 s p.class_name with
  | _, .error e => (.err e, s)
  | none, .ok _ => (.err (.notFound "Class"), s)
  | some cn, .ok _ =>
    let sched := mkSched p now fresh cn
    match validate_sched sched with
    | .error e => (.err e, s)
    | .ok _ => (.resp 201 .detailOk, addSched s sched)

structure EditSchedParams where
  uuid : Option String
  classroom : Option String
  time_start : Option Int
  time_end : Option Int
deriving DecidableEq, Repr

/-- Replace the schedule with the given uuid. -/
def replaceSched (s : Store) (u : String) (sc : Schedule) : Store :=
  { s with scheds := s.scheds.map (fun x => if x.uuid == u then sc else x) }

/-- `edit_sched` (src/app_schedule/views.py lines 64-101): locate by uuid,
resolve the classroom if provided, run `edit_object`; an empty
modification list answers 304 `modified nothing`; otherwise the literal
string `'modified'` is appended to the list, the model is validated and
saved.  No field of the schedule is stamped before saving: the mutated
entity keeps its previous `updatedAt`. -/
def edit_sched (s : Store) (p : EditSchedParams) : Outcome × Store :=
  match get_by_uuid s p.uuid with
  | .error e => (.err e, s)
  | .ok sched =>
    let classroomRes : Except ApiError (Option String) :=
      match p.classroom with
      | none => .ok none
      | some cn =>
        match findClassByName s (some cn) with
        | some _ => .ok (some cn)
        | none => .error (.notFound "Class")
    match classroomRes with
    | .error e => (.err e, s)
    | .ok cro =>
      let (sched2, modifiedList) := edit_object sched cro p.time_start p.time_end
      if modifiedList.isEmpty then (.resp 304 .notModified, s)
      else
        match validate_sched sched2 with
        | .error e => (.err e, s)
        | .ok _ =>
          (.resp 200 (.modifiedFields (modifiedList ++ ["modified"])),
           replaceSched s sched.uuid sched2)

/-- `delete_sched` (src/app_schedule/views.py lines 104-112): locate by
uuid and delete the row. -/
def delete_sched (s : Store) (uuid : Option String) : Outcome × Store :=
  match get_by_uuid s uuid with
  | .error e => (.err e, s)
  | .ok sched =>
    (.resp 200 .deleted,
     { s with scheds := s.scheds.filter (fun x => !(x.uuid == sched.uuid)) })

/-- Modelled from the spec: Django `full_clean` for ClassMetadata
(master_db/models.py is not under src/): the required non-null text fields
taken from request parameters are `name` and `status`. -/
def classMeta_full_clean (c : ClassMetadata) : Except ApiError Unit :=
  match c.name, c.status with
  | some _, some _ => .ok ()
  | none, some _ => .error (.validationError ["name"])
  | some _, none => .error (.validationError ["status"])
  | none, none => .error (.validationError ["name", "status"])

structure CreateClassParams where
  course_name : Option String
  name : Option String
  teacher_uuid : Option String
  status : Option String
  std_uuids : Option String
deriving DecidableEq, Repr

def addClass (s : Store) (c : ClassMetadata) : Store :=
  { s with classes := s.classes ++ [c] }

/-- `create_class` (src/app_class/views.py lines 22-116): resolve the
course by name (404), the teacher by uuid if provided (400 on a malformed
uuid, 404 when absent), build the model with both timestamps set to now,
run `full_clean` (400 on failure), resolve `std_uuids` (a malformed uuid
in the comma-separated list raises ValidationError in the filter, answered
with 400 before anything is saved), then save the class, add the resolved
students and answer 201 with `students_added` listing the uuids that
resolved. -/
def create_class (s : Store) (p : CreateClassParams) (now : Nat) : Outcome × Store :=
  match findCourse s p.course_name with
  | none => (.resp 404 (.errorMsg "Course does not exist"), s)
  | some course =>
    let teacherRes : Except Outcome (Option MyUser) :=
      match p.teacher_uuid with
      | none => .ok none
      | some tu =>
        if isValidUUID tu then
          match findUserByUuid s tu with
          | some u => .ok (some u)
          | none => .error (.resp 404 (.errorMsg "Teacher user does not exist"))
        else .error (.resp 400 (.errorMsg "badly formed uuid"))
    match teacherRes with
    | .error o => (o, s)
    | .ok teacher =>
      let classMeta : ClassMetadata :=
        { name := p.name
          courseName := course.name
          teacherUuid := teacher.map MyUser.uuid
          status := p.status
          createdAt := now
          updatedAt := now
          students := [] }
      match classMeta_full_clean classMeta with
      | .error _ => (.resp 400 (.errorMsg "validation"), s)
      | .ok _ =>
        match p.std_uuids with
        | none => (.resp 201 (.created teacher.isSome none), addClass s classMeta)
        | some su =>
          let ids := splitIds su
          if ids.all isValidUUID then
            let db := s.users.filter (fun u => ids.contains u.uuid)
            let addedPks := db.map MyUser.pk
            let addedUuids := db.map MyUser.uuid
            (.resp 201 (.created teacher.isSome (some addedUuids)),
             addClass s { classMeta with students := addedPks })
          else (.resp 400 (.errorMsg "badly formed uuid"), s)

structure RosterParams where
  name : Option String
  uuids : Option String
deriving DecidableEq, Repr

/-- Replace the first class equal to `old` by `new` (the ORM mutates the
located row in place). -/
def replaceClass (s : Store) (old new : ClassMetadata) : Store :=
  { s with
    classes :=
      match s.classes.indexOf? old with
      | none => s.classes
      | some i => s.classes.set i new }

/-- `add_student` (src/app_class/views.py lines 118-170): resolve the
class by name (404).  The local variable `students` is assigned only
inside the branch guarded by `uuids` being present, yet
`classMeta.students.add(*students)` runs unconditionally: when `uuids` is
absent the handler raises NameError.  Otherwise the resolvable users are
added to the roster and the response lists their uuids. -/
def add_student (s : Store) (p : RosterParams) : Outcome × Store :=
  match findClassByName s p.name with
  | none => (.resp 404 (.errorMsg "Class does not exist"), s)
  | some classMeta =>
    match p.uuids with
    | none => (.crash (.nameError "students"), s)
    | some su =>
      let ids := splitIds su
      if ids.all isValidUUID then
        let db := s.users.filter (fun u => ids.contains u.uuid)
        let addedPks := db.map MyUser.pk
        (.resp 202 (.addedStudents (db.map MyUser.uuid)),
         replaceClass s classMeta
           { classMeta with
             students := classMeta.students ++
               addedPks.filter (fun pk => !classMeta.students.contains pk) })
      else (.resp 400 (.errorMsg "badly formed uuid"), s)

/-- `delete_student` (src/app_class/views.py lines 172-231): resolve the
class by name (404); filter the enrolled students by the supplied uuids;
when some supplied uuid did not resolve to an enrolled student, answer
with the set difference as `not_found` — the `Response` there carries no
`status` argument, so DRF defaults it to HTTP 200 — and remove nothing;
otherwise remove every resolved student and answer 202.  When `uuids` is
absent the remove line reads the unassigned `students` variable
(NameError), as in `add_student`. -/
def delete_student (s : Store) (p : RosterParams) : Outcome × Store :=
  match findClassByName s p.name with
  | none => (.resp 404 (.errorMsg "Class does not exist"), s)
  | some classMeta =>
    match p.uuids with
    | none => (.crash (.nameError "students"), s)
    | some su =>
      let stdIds := splitIds su
      if stdIds.all isValidUUID then
        let enrolled := s.users.filter
          (fun u => classMeta.students.contains u.pk && stdIds.contains u.uuid)
        let uuidsFound := enrolled.map MyUser.uuid
        if uuidsFound.length != stdIds.length then
          (.resp 200 (.missingSet
             (stdIds.eraseDups.filter (fun i => !uuidsFound.contains i))), s)
        else
          (.resp 202 .detailOk,
           replaceClass s classMeta
             { classMeta with
               students := classMeta.students.filter
                 (fun pk => !(enrolled.map MyUser.pk).contains pk) })
      else (.resp 400 (.errorMsg "badly formed uuid"), s)

structure EditClassParams where
  class_name : Option String
  teacher_uuid : Option String
  course_name : Option String
  name : Option String
  status : Option String
deriving DecidableEq, Repr

/-- The update step of `edit_class` (src/app_class/views.py lines
299-314): each provided field is assigned and its name appended, in the
source order name, course, teacher, status — with no comparison against
the entity's current value; when the list is non-empty, `updated_at` is
stamped with now and its name appended. -/
def edit_class_apply (cls : ClassMetadata) (name course teacher statusVal : Option String)
    (now : Nat) : ClassMetadata × List String :=
  let (cls, l) :=
    match name with
    | some v => ({ cls with name := some v }, ["name"])
    | none => (cls, ([] : List String))
  let (cls, l) :=
    match course with
    | some v => ({ cls with courseName := v }, l ++ ["course"])
    | none => (cls, l)
  let (cls, l) :=
    match teacher with
    | some v => ({ cls with teacherUuid := some v }, l ++ ["teacher"])
    | none => (cls, l)
  let (cls, l) :=
    match statusVal with
    | some v => ({ cls with status := some v }, l ++ ["status"])
    | none => (cls, l)
  if l.isEmpty then (cls, l)
  else ({ cls with updatedAt := now }, l ++ ["updated_at"])

/-- In `edit_class` the local binding `status = request.POST.get('status')`
(line 246) shadows the imported `rest_framework.status` module, so each
later `status.HTTP_*` (lines 260, 277, 296, 325, 335) is an attribute
lookup on `None` or on a `str` value; neither type carries an `HTTP_*`
attribute, so the lookup raises AttributeError whichever value the request
supplied. -/
def statusAttr (statusVar : Option String) (attr : String) : Except PyErr Nat :=
  match statusVar with
  | none => .error (.attributeError attr)
  | some _ => .error (.attributeError attr)

/-- `edit_class` (src/app_class/views.py lines 233-336).  The course
branch queries `MyUser.objects.get(name=course)` (line 283) although the
CustomUser model declares no `name` field, so Django raises FieldError
there.  No branch of this handler calls `save()`: the store is returned
unchanged on every path.  Every `Response(..., status=status.HTTP_*)` goes
through `statusAttr` and raises AttributeError (see there). -/
def edit_class (s : Store) (p : EditClassParams) (now : Nat) : Outcome × Store :=
  let statusVar := p.status
  match findClassByName s p.class_name with
  | none =>
    (match statusAttr statusVar "HTTP_404_NOT_FOUND" with
     | .error e => (.crash e, s)
     | .ok st => (.resp st (.errorMsg "Class does not exist"), s))
  | some classMeta =>
    let teacherRes : Except Outcome (Option String) :=
      match p.teacher_uuid with
      | none => .ok none
      | some tu =>
        if isValidUUID tu then
          match findUserByUuid s tu with
          | some u => .ok (some u.uuid)
          | none =>
            .error (match statusAttr statusVar "HTTP_400_BAD_REQUEST" with
                    | .error e => .crash e
                    | .ok st => .resp st (.errorMsg "Teacher user does not exist"))
        else
          .error (match statusAttr statusVar "HTTP_400_BAD_REQUEST" with
                  | .error e => .crash e
                  | .ok st => .resp st (.errorMsg "badly formed uuid"))
    match teacherRes with
    | .error o => (o, s)
    | .ok teacher =>
      match p.course_name with
      | some _ => (.crash (.fieldError "name"), s)
      | none =>
        let (edited, modList) :=
          edit_class_apply classMeta p.name none teacher p.status now
        match classMeta_full_clean edited with
        | .error _ =>
          (match statusAttr statusVar "HTTP_400_BAD_REQUEST" with
           | .error e => (.crash e, s)
           | .ok st => (.resp st (.errorMsg "validation"), s))
        | .ok _ =>
          (match statusAttr statusVar "HTTP_202_ACCEPTED" with
           | .error e => (.crash e, s)
           | .ok st => (.resp st (.modifiedFields modList), s))

/-- `delete_class` (src/app_class/views.py lines 338-356): resolve the
class by name (400 when absent) and answer with the serialized class.  The
handler never calls `delete()`: the store is returned unchanged. -/
def delete_class (s : Store) (name : Option String) : Outcome × Store :=
  match findClassByName s name with
  | none => (.resp 400 (.errorMsg "Class does not exist"), s)
  | some classMeta => (.resp 200 (.classPayload classMeta.name), s)

/-- A JWT as the refresh endpoint sees it: whether its signature verifies
against `settings.JWT_KEY`, whether its `exp` claim is in the past, and
the `typ` and `uuid` claims of its payload. -/
structure Token where
  sigValid : Bool
  expired : Bool
  typ : Option String
  uuid : Option String
deriving DecidableEq, Repr

inductive JwtErr where
  | expiredSignature
  | invalidToken
deriving DecidableEq, Repr

structure JwtPayload where
  typ : Option String
  uuid : Option String
deriving DecidableEq, Repr

/-- `jwt.decode(token, key, algorithms=['HS256'])` of PyJWT: the signature
is verified before the claims, so a bad signature raises
InvalidSignatureError (a jwt.InvalidTokenError) even on an expired token,
and a verified but expired `exp` claim raises ExpiredSignatureError. -/
def jwtDecode (t : Token) : Except JwtErr JwtPayload :=
  if !t.sigValid then .error .invalidToken
  else if t.expired then .error .expiredSignature
  else .ok { typ := t.typ, uuid := t.uuid }

/-- Outcome of `RefreshView.post`: a 200 response carrying a fresh access
token for the given user, a DRF structured error, or an uncaught
jwt.InvalidTokenError (only ExpiredSignatureError has an except clause). -/
inductive RefreshOutcome where
  | accessToken (userPk : Nat)
  | err (e : ApiError)
  | crash
deriving DecidableEq, Repr

/-- `RefreshView.post` (src/app_auth/views.py lines 93-130): require the
`refresh` parameter (ParseError), decode the token — ExpiredSignatureError
is answered with AuthenticationFailed, any other decode failure escapes —
require `typ == 'refresh'` (ParseError), resolve the payload's uuid to a
user (NotFound when absent or inactive), then issue a new access token. -/
def refresh_post (s : Store) (refresh : Option Token) : RefreshOutcome :=
  match refresh with
  | none => .err (.parseError "This field is required.")
  | some tok =>
    match jwtDecode tok with
    | .error .expiredSignature => .err (.authenticationFailed "Refresh token expired.")
    | .error .invalidToken => .crash
    | .ok payload =>
      if !(payload.typ == some "refresh") then .err (.parseError "Invalid refresh token.")
      else
        match payload.uuid with
        | none => .err (.notFound "User not found")
        | some uid =>
          match findUserByUuid s uid with
          | none => .err (.notFound "User not found")
          | some u =>
            if !u.isActive then .err (.notFound "User inactive.")
            else .accessToken u.pk

/-! Concrete fixtures used by the witnesses and counterexamples. -/

def uuidA : String := "aaaaaaaa-aaaa-4aaa-8aaa-aaaaaaaaaaaa"

def uuidB : String := "bbbbbbbb-bbbb-4bbb-8bbb-bbbbbbbbbbbb"

def uuidC : String := "cccccccc-cccc-4ccc-8ccc-cccccccccccc"

def uuidS : String := "dddddddd-dddd-4ddd-8ddd-dddddddddddd"

def userA : MyUser := { pk := 1, uuid := uuidA, isActive := true }

def userC : MyUser := { pk := 3, uuid := uuidC, isActive := true }

def mathCourse : Course := { name := "math" }

def classC1 : ClassMetadata :=
  { name := some "c1", courseName := "math", teacherUuid := none,
    status := some "open", createdAt := 0, updatedAt := 7, students := [1] }

def schedS : Schedule :=
  { uuid := uuidS, classroomName := "c1", timeStart := some 1, timeEnd := some 5,
    createdAt := 0, updatedAt := 7 }

def exStore : Store :=
  { users := [userA, userC], courses := [mathCourse],
    classes := [classC1], scheds := [schedS] }

/-! Claim theorems. -/

/-- C2: for a remove-students request on class `c1` listing the enrolled
`uuidA` and the never-enrolled `uuidB`, `delete_student` performs no
removal and reports `not_found = {uuidB}`, but the `Response` carries
DRF's default status 200 rather than a client-error status: the early
return at views.py lines 215-221 passes no `status` argument. -/
theorem C2_delete_student_partial_match_status :
    delete_student exStore { name := some "c1", uuids := some (uuidA ++ "," ++ uuidB) }
        = (.resp 200 (.missingSet [uuidB]), exStore)
      ∧ delete_student exStore { name := some "c1", uuids := some uuidA }
        = (.resp 202 .detailOk,
           { exStore with classes := [{ classC1 with students := [] }] }) := by
  decide

/-- C3: an edit_sched request that changes `time_start` answers with the
non-empty modification list `['time_start', 'modified']`, yet the
persisted schedule keeps its previous `updatedAt` (7): no updated_at-style
field is stamped, although the handler's own docstring promises
"updated_at will be updated".  The empty-change-set half behaves as
claimed: an equal-valued change set answers 304 and leaves the store
untouched. -/
theorem C3_edit_sched_no_timestamp_stamp :
    (edit_sched exStore
        { uuid := some uuidS, classroom := none, time_start := some 2, time_end := none })
      = (.resp 200 (.modifiedFields ["time_start", "modified"]),
         { exStore with
           scheds := [{ schedS with timeStart := some 2, updatedAt := 7 }] })
    ∧ (edit_sched exStore
        { uuid := some uuidS, classroom := none, time_start := some 1, time_end := none })
      = (.resp 304 .notModified, exStore) := by
  decide

/-- C5: an edit-class request naming a non-existent class does not get a
structured NotFound response: the handler's `status` local (the POST
`status` parameter) shadows the `rest_framework.status` module, so
building the 404 response raises AttributeError, which escapes unhandled. -/
theorem C5_edit_class_not_found_crashes :
    edit_class exStore
        { class_name := some "ghost", teacher_uuid := none, course_name := none,
          name := none, status := none } 0
      = (.crash (.attributeError "HTTP_404_NOT_FOUND"), exStore) := by
  decide

/-- C6: after `delete_class` answers successfully (200 with the serialized
class), the class is still located by name — the handler never calls
`delete()` — while `delete_sched` does remove the schedule from the
store. -/
theorem C6_delete_class_removes_nothing :
    delete_class exStore (some "c1") = (.resp 200 (.classPayload (some "c1")), exStore)
    ∧ findClassByName (delete_class exStore (some "c1")).2 (some "c1") = some classC1
    ∧ (delete_sched exStore (some uuidS)).1 = .resp 200 .deleted
    ∧ findSchedByUuid (delete_sched exStore (some uuidS)).2 uuidS = none := by
  decide

/-- C7: a validation-passing edit-class request with the non-empty
modification list `['name', 'updated_at']` leaves the store unchanged (the
handler has no `save()` call, and in fact crashes with AttributeError
before responding, see C5): the lookup under the new name still fails and
the old row is untouched.  edit_sched, by contrast, persists its mutation
before answering. -/
theorem C7_edit_class_never_persists :
    edit_class exStore
        { class_name := some "c1", teacher_uuid := none, course_name := none,
          name := some "c2", status := none } 9
      = (.crash (.attributeError "HTTP_202_ACCEPTED"), exStore)
    ∧ findClassByName exStore (some "c2") = none
    ∧ findClassByName exStore (some "c1") = some classC1
    ∧ (edit_sched exStore
        { uuid := some uuidS, classroom := none, time_start := none, time_end := some 9 })
      = (.resp 200 (.modifiedFields ["time_end", "modified"]),
         { exStore with
           scheds := [{ schedS with timeEnd := some 9 }] }) := by
  decide

/-- C10: when the `uuids` parameter is absent, `add_student` on an
existing class reaches `classMeta.students.add(*students)` with the
`students` variable unbound and raises NameError instead of returning a
structured response. -/
theorem C10_add_student_unbound_students (s : Store) (p : RosterParams)
    (hclass : (findClassByName s p.name).isSome = true)
    (huuids : p.uuids = none) :
    add_student s p = (.crash (.nameError "students"), s) := by
  rcases hm : findClassByName s p.name with _ | c
  · rw [hm] at hclass; cases hclass
  · simp [add_student, hm, huuids]

/-- C10 witness: the concrete store and request. -/
theorem C10_add_student_unbound_students_witness :
    add_student exStore { name := some "c1", uuids := none }
      = (.crash (.nameError "students"), exStore) :=
  C10_add_student_unbound_students exStore { name := some "c1", uuids := none }
    (by decide) rfl

/-- C1 counterexample: in `edit_class` the update step is not
equality-filtered.  With the change set `{name: "c1"}` whose proposed
value equals the class's current name, the modification list is
`['name', 'updated_at']`, not `[]` — and applying the same change set a
second time yields the same non-empty list, refuting the claimed
idempotence for every entity. -/
theorem C1_edit_class_records_equal_value :
    classC1.name = some "c1"
    ∧ (edit_class_apply classC1 (some "c1") none none none 9).2 = ["name", "updated_at"]
    ∧ edit_class_apply (edit_class_apply classC1 (some "c1") none none none 9).1
        (some "c1") none none none 9
      = ((edit_class_apply classC1 (some "c1") none none none 9).1,
         ["name", "updated_at"]) := by
  decide

/-- C1 amended: the generic `edit_object` step used by edit_sched records
exactly the provided fields whose proposed value differs from the current
one, and applying the same change set twice yields an empty list the
second time; the inline update step of edit_class instead records every
provided field (appending `updated_at` when any was provided) regardless
of whether its value differs. -/
theorem C1_partial_update_fields (sc : Schedule) (c : Option String) (ts te : Option Int)
    (cls : ClassMetadata) (nm co tch st : Option String) (now : Nat) :
    (∀ f, f ∈ (edit_object sc c ts te).2 ↔
        ((f = "classroom" ∧ ∃ v, c = some v ∧ sc.classroomName ≠ v)
          ∨ (f = "time_start" ∧ ∃ v, ts = some v ∧ sc.timeStart ≠ some v)
          ∨ (f = "time_end" ∧ ∃ v, te = some v ∧ sc.timeEnd ≠ some v)))
    ∧ edit_object (edit_object sc c ts te).1 c ts te = ((edit_object sc c ts te).1, [])
    ∧ (edit_class_apply cls nm co tch st now).2
        = ((if nm.isSome then ["name"] else []) ++ (if co.isSome then ["course"] else [])
            ++ (if tch.isSome then ["teacher"] else []) ++ (if st.isSome then ["status"] else [])
            ++ (if nm.isSome || co.isSome || tch.isSome || st.isSome then ["updated_at"]
                else [])) := by
  refine ⟨?_, ?_, ?_⟩
  · intro f
    rcases c with _ | cv <;> rcases ts with _ | tsv <;> rcases te with _ | tev <;>
      (try by_cases h1 : sc.classroomName = cv) <;>
      (try by_cases h2 : sc.timeStart = some tsv) <;>
      (try by_cases h3 : sc.timeEnd = some tev) <;>
      simp_all [edit_object]
  · rcases c with _ | cv <;> rcases ts with _ | tsv <;> rcases te with _ | tev <;>
      (try by_cases h1 : sc.classroomName = cv) <;>
      (try by_cases h2 : sc.timeStart = some tsv) <;>
      (try by_cases h3 : sc.timeEnd = some tev) <;>
      simp_all [edit_object]
  · rcases nm with _ | a <;> rcases co with _ | b <;> rcases tch with _ | c' <;>
      rcases st with _ | d <;> simp [edit_class_apply]

/-- C4: in create_sched and edit_sched the store changes only by
persisting an entity on which `validate_sched` (full model validation plus
the time_end > time_start cross-field check) succeeded, and when
validation of the constructed schedule fails the handler answers with that
error and the store is exactly the initial one. -/
theorem C4_validation_gates_persistence (s : Store) (p : CreateSchedParams)
    (q : EditSchedParams) (now : Nat) (fresh : String) :
    ((create_sched s p now fresh).2 = s
      ∨ ∃ sc, validate_sched sc = .ok ()
          ∧ create_sched s p now fresh = (.resp 201 .detailOk, addSched s sc))
    ∧ (∀ cn e, p.class_name = some cn → (findClassByName s (some cn)).isSome = true →
        validate_sched (mkSched p now fresh cn) = .error e →
        create_sched s p now fresh = (.err e, s))
    ∧ ((edit_sched s q).2 = s
      ∨ ∃ u sc, validate_sched sc = .ok () ∧ (edit_sched s q).2 = replaceSched s u sc) := by
  refine ⟨?_, ?_, ?_⟩
  · rcases hcn : p.class_name with _ | cn
    · left; simp [create_sched, get_object_or_404, findClassByName, hcn]
    · rcases hf : findClassByName s (some cn) with _ | cls
      · left; simp [create_sched, get_object_or_404, hcn, hf]
      · rcases hv : validate_sched (mkSched p now fresh cn) with e | u
        · left; simp [create_sched, get_object_or_404, hcn, hf, hv]
        · right
          exact ⟨mkSched p now fresh cn, hv,
            by simp [create_sched, get_object_or_404, hcn, hf, hv]⟩
  · intro cn e hcn hf hv
    rcases hfc : findClassByName s (some cn) with _ | cls
    · rw [hfc] at hf; cases hf
    · simp [create_sched, get_object_or_404, hcn, hfc, hv]
  · rcases hg : get_by_uuid s q.uuid with e | sched
    · left; simp [edit_sched, hg]
    · rcases hq : q.classroom with _ | cn
      · rcases hml : edit_object sched none q.time_start q.time_end with ⟨sched2, ml⟩
        by_cases hemp : ml.isEmpty
        · left; simp [edit_sched, hg, hq, hml, hemp]
        · rcases hv : validate_sched sched2 with e | u
          · left; simp [edit_sched, hg, hq, hml, hemp, hv]
          · right
            exact ⟨sched.uuid, sched2, hv, by simp [edit_sched, hg, hq, hml, hemp, hv]⟩
      · rcases hfc : findClassByName s (some cn) with _ | cls
        · left; simp [edit_sched, hg, hq, hfc]
        · rcases hml : edit_object sched (some cn) q.time_start q.time_end with ⟨sched2, ml⟩
          by_cases hemp : ml.isEmpty
          · left; simp [edit_sched, hg, hq, hfc, hml, hemp]
          · rcases hv : validate_sched sched2 with e | u
            · left; simp [edit_sched, hg, hq, hfc, hml, hemp, hv]
            · right
              exact ⟨sched.uuid, sched2, hv,
                by simp [edit_sched, hg, hq, hfc, hml, hemp, hv]⟩

/-- C4 witness: a create_sched request whose times fail the cross-field
check is answered with the ParseError and leaves the store unchanged. -/
theorem C4_validation_gates_persistence_witness :
    create_sched exStore { class_name := some "c1", time_start := some 5, time_end := some 5 }
        9 uuidB
      = (.err (.parseError "Time end must be greater than time start"), exStore) :=
  (C4_validation_gates_persistence exStore
      { class_name := some "c1", time_start := some 5, time_end := some 5 }
      { uuid := none, classroom := none, time_start := none, time_end := none }
      9 uuidB).2.1
    "c1" (.parseError "Time end must be greater than time start") rfl (by decide) rfl

/-- C8: a create-class request with a resolvable course, no teacher, and a
std_uuids list records the class with exactly the resolvable students and
reports `students_added` containing exactly the supplied identifiers that
resolve to existing users; unresolved identifiers are silently omitted and
the class is created regardless. -/
theorem C8_create_class_partial_resolution (s : Store) (p : CreateClassParams) (now : Nat)
    (course : Course) (su : String)
    (hcourse : findCourse s p.course_name = some course)
    (hteacher : p.teacher_uuid = none)
    (hsu : p.std_uuids = some su)
    (hname : p.name.isSome = true) (hstatus : p.status.isSome = true)
    (hvalid : (splitIds su).all isValidUUID = true) :
    create_class s p now =
      (.resp 201 (.created false
         (some ((s.users.filter (fun u => (splitIds su).contains u.uuid)).map MyUser.uuid))),
       addClass s
         { name := p.name, courseName := course.name, teacherUuid := none,
           status := p.status, createdAt := now, updatedAt := now,
           students := (s.users.filter (fun u => (splitIds su).contains u.uuid)).map MyUser.pk })
    ∧ ∀ x, x ∈ (s.users.filter (fun u => (splitIds su).contains u.uuid)).map MyUser.uuid ↔
        (x ∈ splitIds su ∧ ∃ u, u ∈ s.users ∧ u.uuid = x) := by
  constructor
  · obtain ⟨nm, hnm⟩ := Option.isSome_iff_exists.mp hname
    obtain ⟨st, hst⟩ := Option.isSome_iff_exists.mp hstatus
    simp [create_class, hcourse, hteacher, hsu, hnm, hst, hvalid, classMeta_full_clean]
  · intro x
    simp only [List.mem_map, List.mem_filter, List.contains, List.elem_eq_mem,
      decide_eq_true_eq]
    constructor
    · rintro ⟨u, ⟨hu, hmem⟩, rfl⟩
      exact ⟨hmem, u, hu, rfl⟩
    · rintro ⟨hx, u, hu, rfl⟩
      exact ⟨u, ⟨hu, hx⟩, rfl⟩

def createP : CreateClassParams :=
  { course_name := some "math", name := some "k1", teacher_uuid := none,
    status := some "open",
    std_uuids := some (uuidA ++ ", " ++ uuidB ++ "," ++ uuidC) }

/-- C8 witness: the spec's scenario with `uuidB` unresolved — the class is
created with students `[userA, userC]` and `students_added` lists exactly
`[uuidA, uuidC]`. -/
theorem C8_create_class_partial_resolution_witness :
    create_class exStore createP 5 =
      (.resp 201 (.created false (some [uuidA, uuidC])),
       addClass exStore
         { name := some "k1", courseName := "math", teacherUuid := none,
           status := some "open", createdAt := 5, updatedAt := 5,
           students := [1, 3] }) :=
  (C8_create_class_partial_resolution exStore createP 5 mathCourse
      (uuidA ++ ", " ++ uuidB ++ "," ++ uuidC)
      (by decide) rfl rfl rfl rfl (by decide)).1

/-- C9: a refresh request whose token carries a verified but expired
signature is answered with AuthenticationFailed (whose DRF status is 401)
and no access token; and an access token is issued only when the signature
verifies, the token is unexpired, its typ claim is `refresh`, and its uuid
claim names an existing active user. -/
theorem C9_refresh_token_conditions (s : Store) (t : Token) :
    (t.sigValid = true → t.expired = true →
      refresh_post s (some t) = .err (.authenticationFailed "Refresh token expired.")
        ∧ apiStatus (.authenticationFailed "Refresh token expired.") = 401)
    ∧ (∀ pk, refresh_post s (some t) = .accessToken pk →
        t.sigValid = true ∧ t.expired = false ∧ t.typ = some "refresh"
        ∧ ∃ u, u ∈ s.users ∧ t.uuid = some u.uuid ∧ u.isActive = true ∧ u.pk = pk) := by
  constructor
  · intro hs he
    refine ⟨?_, rfl⟩
    simp [refresh_post, jwtDecode, hs, he]
  · intro pk h
    unfold refresh_post jwtDecode at h
    by_cases hs : t.sigValid = true
    · by_cases he : t.expired = true
      · simp [hs, he] at h
      · simp [hs, he] at h
        by_cases ht : t.typ = some "refresh"
        · rcases hu : t.uuid with _ | uid
          · simp [ht, hu] at h
          · simp [ht, hu] at h
            rcases hf : findUserByUuid s uid with _ | u
            · simp [hf] at h
            · simp [hf] at h
              by_cases ha : u.isActive = true
              · simp [ha] at h
                rw [findUserByUuid] at hf
                have hmem := List.mem_of_find?_eq_some hf
                have huuid := List.find?_some hf
                refine ⟨hs, by simpa using he, ht, u, hmem, ?_, ha, h⟩
                simp only [beq_iff_eq] at huuid
                rw [huuid]
              · simp [ha] at h
        · simp [ht] at h
    · simp [hs] at h

end TfcBackend
